import Mathlib

/-!
Verification development for the d-ai-trader supervision core.

The definitions below are a shallow embedding of the repository source:

* `static/js/schwab.js` — the dashboard holdings view: the nullish fallback
  chain that resolves the displayed effective-funds value, the status
  dispatch of `refreshSchwabData`, and the `schwabLoading` re-entrancy guard.
* `start_schwab_one_trade.sh` — the launcher: token freshness check,
  refresh/validate flow, process launch order, the EXIT cleanup trap and the
  `wait` on the dashboard process.
* `start_d_ai_trader.sh` (and its variants) — trading-mode validation via
  substring matching against the joined `VALID_TRADING_MODES` list, and the
  `DAI_MAX_TRADES` shell default.

JavaScript numeric document fields are modelled as `Option Int`: a missing or
null JSON field is `none`, so the JS nullish operator `a ?? b` is exactly a
match on the option.  The trade-safety enforcer itself is python code outside
the provided sources; it is modelled from the spec (section 4.5) where noted.
-/

namespace DAITrader

/-- Nullish coalescing with a final concrete default: models the JS tail
`... ?? k` of a chain. -/
def nv (a : Option Int) (k : Int) : Int :=
  match a with
  | some v => v
  | none => k

/-- Nullish coalescing of two optional values: models JS `a ?? b`. -/
def nvo (a b : Option Int) : Option Int :=
  match a with
  | some v => some v
  | none => b

/-- First defined value of a chain of optional values, defaulting to 0.
This is the generic first-non-missing-wins contract the spec describes. -/
def optChain : List (Option Int) → Int
  | [] => 0
  | a :: rest =>
    match a with
    | some v => v
    | none => optChain rest

/-- JS `a || b` on an optional string, where the empty string is falsy. -/
def jsOrString (a : Option String) (b : String) : String :=
  match a with
  | some s => if s = "" then b else s
  | none => b

/-- The `account_info` object of the holdings document (spec section 6;
fields read by `renderSchwabData` in static/js/schwab.js). -/
structure AccountInfo where
  funds_available_for_trading : Option Int := none
  funds_available_effective : Option Int := none
  cash_balance : Option Int := none
  unsettled_cash : Option Int := none
  order_reserve : Option Int := none
  open_orders_count : Option Int := none
  buying_power : Option Int := none
  day_trading_buying_power : Option Int := none
deriving DecidableEq

/-- The `funds_available_components` object of the holdings document
(spec section 6). -/
structure FundsComponents where
  effective : Option Int := none
  explicit : Option Int := none
  derived_cash : Option Int := none
  settled_cash : Option Int := none
  unsettled_cash : Option Int := none
  order_reserve : Option Int := none
  same_day_net : Option Int := none
deriving DecidableEq

/-- The holdings document served at /api/schwab/holdings, restricted to the
fields static/js/schwab.js reads. -/
structure SchwabDoc where
  enabled : Bool := true
  status : String := "success"
  message : Option String := none
  total_portfolio_value : Option Int := none
  cash_balance : Option Int := none
  cash_balance_settled : Option Int := none
  unsettled_cash : Option Int := none
  order_reserve : Option Int := none
  open_orders_count : Option Int := none
  funds_available_effective : Option Int := none
  funds_available_for_trading : Option Int := none
  account_info : Option AccountInfo := none
  funds_available_components : Option FundsComponents := none
deriving DecidableEq

/-- The displayed effective-funds value, from static/js/schwab.js lines
139 to 144:
`data.funds_available_effective ?? data.funds_available_for_trading
 ?? data.account_info?.funds_available_for_trading
 ?? data.account_info?.funds_available_effective ?? data.cash_balance ?? 0`. -/
def fundsAvailable (d : SchwabDoc) : Int :=
  nv (nvo d.funds_available_effective
      (nvo d.funds_available_for_trading
        (nvo (d.account_info.bind AccountInfo.funds_available_for_trading)
          (nvo (d.account_info.bind AccountInfo.funds_available_effective)
            d.cash_balance)))) 0

/-- The fallback chain exactly as the spec words it (sections 4.4 and 6):
explicit, then derived_cash, then the snapshot buying-power field, then
settled cash, then 0; read off the document fields that carry those
components (`funds_available_components.explicit`,
`funds_available_components.derived_cash`, `account_info.buying_power`,
`cash_balance`). -/
def specFundsChain (d : SchwabDoc) : Int :=
  nv (nvo (d.funds_available_components.bind FundsComponents.explicit)
      (nvo (d.funds_available_components.bind FundsComponents.derived_cash)
        (nvo (d.account_info.bind AccountInfo.buying_power)
          d.cash_balance))) 0

/-- Settled-cash display value, schwab.js lines 145 to 148. -/
def settledCashValue (d : SchwabDoc) : Int :=
  nv (nvo d.cash_balance_settled
      (nvo d.cash_balance (d.account_info.bind AccountInfo.cash_balance))) 0

/-- Unsettled-cash display value, schwab.js lines 149 to 151. -/
def unsettledCashValue (d : SchwabDoc) : Int :=
  nv (nvo d.unsettled_cash (d.account_info.bind AccountInfo.unsettled_cash)) 0

/-- Order-reserve display value, schwab.js lines 157 to 160. -/
def orderReserveValue (d : SchwabDoc) : Int :=
  nv (nvo d.order_reserve
      (nvo (d.account_info.bind AccountInfo.order_reserve)
        (d.funds_available_components.bind FundsComponents.order_reserve))) 0

/-- Open-orders display value, schwab.js lines 162 to 164. -/
def openOrdersValue (d : SchwabDoc) : Int :=
  nv (nvo d.open_orders_count
      (d.account_info.bind AccountInfo.open_orders_count)) 0

/-- The numeric summary fields the dashboard writes on a successful render.
`buyingPower` and `dayTradingPower` are `none` when the render skipped them
(they are only written when `account_info` is present in the document). -/
structure RenderedFields where
  total : Int
  funds : Int
  settled : Int
  unsettled : Int
  reserve : Int
  openOrders : Int
  buyingPower : Option Int
  dayTradingPower : Option Int
deriving DecidableEq

/-- renderSchwabData of static/js/schwab.js (second revision, lines 119
onward), restricted to the numeric summary values it writes into the DOM.
JS `v || 0` on a number agrees with `Option.getD 0` here since a present 0
maps to 0 either way. -/
def renderSchwabData (d : SchwabDoc) : RenderedFields :=
  { total := d.total_portfolio_value.getD 0
    funds := fundsAvailable d
    settled := settledCashValue d
    unsettled := unsettledCashValue d
    reserve := orderReserveValue d
    openOrders := openOrdersValue d
    buyingPower := d.account_info.map (fun a => a.buying_power.getD 0)
    dayTradingPower := d.account_info.map (fun a => a.day_trading_buying_power.getD 0) }

/-- Outcome of one completed `refreshSchwabData` call. -/
inductive RenderOutcome where
  | errorState (msg : String)
  | disabledInfo
  | rendered (r : RenderedFields)
deriving DecidableEq

/-- Status dispatch of refreshSchwabData, schwab.js lines 246 to 262. -/
def refreshDispatch (d : SchwabDoc) : RenderOutcome :=
  if d.enabled = false then
    .errorState "Schwab integration is not available. Please check your configuration."
  else if d.status = "error" then
    .errorState (jsOrString d.message "Failed to retrieve Schwab data")
  else if d.status = "disabled" then
    .disabledInfo
  else if d.status = "success" then
    .rendered (renderSchwabData d)
  else
    .errorState "Unexpected response from Schwab API"

/-- True when the outcome is the explicit error state. -/
def isErrorOutcome : RenderOutcome → Bool
  | .errorState _ => true
  | _ => false

/-- Dashboard page state relevant to the re-entrancy guard. -/
structure UiState where
  schwabLoading : Bool
deriving DecidableEq

/-- Result of the fetch awaited inside refreshSchwabData. -/
inductive FetchOutcome where
  | ok (d : SchwabDoc)
  | exn (msg : String)

/-- refreshSchwabData as a state transition, schwab.js lines 240 to 267:
returns the new page state, whether an HTTP request was issued, and the
outcome (none when the call returned early on the guard).  The loading flag
is set for the duration of the fetch and cleared on both the success and the
exception path before any outcome is produced. -/
def refreshSchwabStep (s : UiState) (f : FetchOutcome) :
    UiState × Bool × Option RenderOutcome :=
  if s.schwabLoading then (s, false, none)
  else
    match f with
    | .ok d => ({ schwabLoading := false }, true, some (refreshDispatch d))
    | .exn m =>
      ({ schwabLoading := false }, true, some (.errorState ("Connection failed: " ++ m)))

/-- The 30-second interval callback, schwab.js lines 268 to 271: it checks
the guard itself and otherwise behaves as refreshSchwabData. -/
def intervalTick (s : UiState) (f : FetchOutcome) :
    UiState × Bool × Option RenderOutcome :=
  if s.schwabLoading then (s, false, none) else refreshSchwabStep s f

/-!
Launcher model: start_schwab_one_trade.sh.

The environment an individual run encounters is captured by `AuthEnv`:
whether the token file exists and how old it is, plus two oracles indexed by
the number of refresh_tokens invocations completed so far — whether the k-th
refresh subprocess exits 0, and what validate_tokens reports after r
refreshes.  The script runs under `set -Eeuo pipefail`, so a failing
refresh_tokens call (a plain command, not a condition) aborts the whole
script at once; validate_tokens is only ever used in an `if` condition.
-/

/-- Run environment for the token phase of start_schwab_one_trade.sh. -/
structure AuthEnv where
  tokenFileExists : Bool
  tokenAgeSeconds : Nat
  refreshOk : Nat → Bool
  validateOk : Nat → Bool

/-- The hard-coded freshness bound of line 136: AGE < 432000 (5 days). -/
def freshnessThreshold : Nat := 432000

/-- Lines 133 to 139: REFRESH stays 1 unless the token file exists and its
age is strictly below the threshold. -/
def needsInitialRefresh (e : AuthEnv) : Bool :=
  !(e.tokenFileExists && decide (e.tokenAgeSeconds < freshnessThreshold))

/-- Terminal status of the token phase. -/
inductive AuthOutcome where
  | proceed
  | fatal
deriving DecidableEq

/-- The number of refresh_tokens invocations made by the age check
(lines 141 to 143): one when a refresh is needed, none otherwise. -/
def initialRefreshCount (e : AuthEnv) : Nat :=
  if needsInitialRefresh e then 1 else 0

/-- Lines 145 to 151, entered with r refreshes already done: if
validate_tokens fails, run refresh_tokens once (a failure there aborts the
script under set -e) and re-validate; a second validation failure exits 1.
The second component counts refresh_tokens invocations attempted in total
after this point plus r. -/
def authValidatePhase (e : AuthEnv) (r : Nat) : AuthOutcome × Nat :=
  if e.validateOk r then (.proceed, r)
  else if e.refreshOk r then
    if e.validateOk (r + 1) then (.proceed, r + 1) else (.fatal, r + 1)
  else (.fatal, r + 1)

/-- The whole token phase, lines 133 to 151: conditional age-triggered
refresh, then validation with a single refresh-and-retry.  Returns the
outcome and the total number of refresh_tokens invocations attempted. -/
def authFlow (e : AuthEnv) : AuthOutcome × Nat :=
  if needsInitialRefresh e then
    if e.refreshOk 0 then authValidatePhase e 1 else (.fatal, 1)
  else authValidatePhase e 0

/-- Observable steps of start_schwab_one_trade.sh in source order. -/
inductive ScriptEv where
  | evRefresh
  | evValidate
  | evStartStream
  | evStartDash
  | evRunCycle
  | evFatal
deriving DecidableEq

/-- Launches after a successful token phase, lines 163 to 231: streaming
helper, then dashboard server, then the one-shot trading cycle. -/
def launchTrace : List ScriptEv :=
  [.evStartStream, .evStartDash, .evRunCycle]

/-- Event trace of the validation block (lines 145 to 151) and everything
after it, entered with r refreshes done. -/
def validateTrace (e : AuthEnv) (r : Nat) : List ScriptEv :=
  if e.validateOk r then .evValidate :: launchTrace
  else if e.refreshOk r then
    if e.validateOk (r + 1) then
      .evValidate :: .evRefresh :: .evValidate :: launchTrace
    else [.evValidate, .evRefresh, .evValidate, .evFatal]
  else [.evValidate, .evRefresh, .evFatal]

/-- Event trace of a run of start_schwab_one_trade.sh from the age check
onward. -/
def scriptTrace (e : AuthEnv) : List ScriptEv :=
  if needsInitialRefresh e then
    if e.refreshOk 0 then .evRefresh :: validateTrace e 1
    else [.evRefresh, .evFatal]
  else validateTrace e 0

/-- Is this event the start of a dependent process? -/
def isProcStart : ScriptEv → Bool
  | .evStartStream => true
  | .evStartDash => true
  | _ => false

/-- Is this event a validation call? -/
def isValidateEv : ScriptEv → Bool
  | .evValidate => true
  | _ => false

/-- The events of a trace that happen strictly before any process start. -/
def beforeProcs (l : List ScriptEv) : List ScriptEv :=
  l.takeWhile (fun x => !isProcStart x)

/-- The events of a trace that happen strictly before the first validation. -/
def beforeValidation (l : List ScriptEv) : List ScriptEv :=
  l.takeWhile (fun x => !isValidateEv x)

/-!
Supervision after launch: the script parks in `wait "${DASH_PID}"`
(line 237) and the EXIT trap (lines 153 to 161) kills both recorded PIDs.
-/

/-- Where the supervising script is parked. -/
inductive SupPhase where
  | waitingDash
  | exited
deriving DecidableEq

/-- Liveness of the two long-running children plus the script phase. -/
structure SupState where
  streamAlive : Bool
  dashAlive : Bool
  phase : SupPhase
deriving DecidableEq

/-- Child-death events observable by the supervisor. -/
inductive SupEvent where
  | streamDies
  | dashDies

/-- Supervisor reaction, from lines 153 to 161 and 237: the script waits
only on the dashboard PID, so a streaming-helper death changes nothing for
the dashboard; a dashboard death unblocks the wait, the script ends, and the
EXIT trap kills the streaming helper. -/
def supStep : SupState → SupEvent → SupState
  | s, .streamDies => { s with streamAlive := false }
  | s, .dashDies =>
    match s.phase with
    | .waitingDash => { streamAlive := false, dashAlive := false, phase := .exited }
    | .exited => { s with dashAlive := false }

/-- A supervised child process: whether it is currently alive, and whether
it reacts to SIGTERM by terminating. -/
structure ChildProc where
  alive : Bool
  honorsSigterm : Bool
deriving DecidableEq

/-- Effect of `kill PID` (plain SIGTERM): the child dies only if it honors
the signal; nothing further is sent. -/
def sendSigterm (c : ChildProc) : ChildProc :=
  if c.alive && c.honorsSigterm then { c with alive := false } else c

/-- The cleanup EXIT trap, start_schwab_one_trade.sh lines 153 to 161 (and
the one-line trap of the start_d_ai_trader.sh variant): one `kill` per
recorded PID, no grace-period wait and no forced kill afterwards. -/
def cleanupTrap (children : List ChildProc) : List ChildProc :=
  children.map sendSigterm

/-!
Configuration: trading-mode validation and the trade-cap default.
-/

/-- Bash default expansion `${VAR:-d}`: unset or empty gives the default. -/
def shellDefault (v : Option String) (d : String) : String :=
  match v with
  | some s => if s = "" then d else s
  | none => d

/-- `DAI_MAX_TRADES="${DAI_MAX_TRADES:-1}"`, start_schwab_one_trade.sh
line 97 and start_live_trading.sh line 125. -/
def resolveMaxTrades (env : Option String) : String :=
  shellDefault env "1"

/-- Decimal value of a digit character. -/
def charDigit (c : Char) : Nat := c.toNat - 48

/-- Fold a list of decimal digit characters into a number. -/
def parseNatChars : List Char → Nat → Nat
  | [], acc => acc
  | c :: cs, acc => parseNatChars cs (acc * 10 + charDigit c)

/-- Numeric reading of a decimal string, as downstream int() conversion. -/
def parseNatStr (s : String) : Nat := parseNatChars s.toList 0

/-- The numeric cap downstream code reads from the exported variable. -/
def resolvedCap (env : Option String) : Nat :=
  parseNatStr (resolveMaxTrades env)

/-- Does the pattern occur at the head of the text? -/
def matchStart : List Char → List Char → Bool
  | [], _ => true
  | _ :: _, [] => false
  | p :: ps, t :: ts => p == t && matchStart ps ts

/-- Does the pattern occur anywhere in the text? -/
def containsSeq : List Char → List Char → Bool
  | [], pat => pat.isEmpty
  | t :: ts, pat => matchStart pat (t :: ts) || containsSeq ts pat

/-- Substring test on strings. -/
def strContainsSub (text pat : String) : Bool :=
  containsSeq text.toList pat.toList

/-- The joined VALID_TRADING_MODES array of the start_d_ai_trader.sh
variant, as the string bash builds in
`[[ " ${VALID_TRADING_MODES[@]} " =~ " ${TRADING_MODE} " ]]`. -/
def validTradingModesJoined : String := " simulation real_world "

/-- The startup acceptance test for a trading mode: the quoted regex match
degenerates to a substring test of the space-wrapped candidate against the
joined list. -/
def tradingModeAccepted (m : String) : Bool :=
  strContainsSub validTradingModesJoined (" " ++ m ++ " ")

/-!
Trade-safety enforcer.  The python enforcer (trading_interface / decider)
is not among the provided sources; it is modelled from the spec.
-/

/-- Trading modes as the spec names them (section 4.5). -/
inductive TradeMode where
  | simulation
  | live_readonly
  | live
deriving DecidableEq

/-- Result of one order proposal. -/
inductive ProposalResult where
  | permitted
  | refusedReadOnly
  | refusedCapExceeded
  | recordedNonExecuting
deriving DecidableEq

/-- Per-cycle enforcer state (spec section 3, CycleState). -/
structure CycleState where
  trades_executed : Nat
  cap : Nat
  mode : TradeMode
deriving DecidableEq

/-- Modelled from the spec: the TradeSafetyEnforcer order-proposal check of
section 4.5, whose implementation is outside the provided sources.
Read-only mode refuses, simulation records without executing (scenario D
fixes the precedence of the read-only refusal over the generic non-live
bookkeeping), live mode permits only while trades_executed is below cap and
increments the counter as one step with the check. -/
def proposeOrder (s : CycleState) : ProposalResult × CycleState :=
  match s.mode with
  | .live_readonly => (.refusedReadOnly, s)
  | .simulation => (.recordedNonExecuting, s)
  | .live =>
    if s.cap ≤ s.trades_executed then (.refusedCapExceeded, s)
    else (.permitted, { s with trades_executed := s.trades_executed + 1 })

/-- Run n successive proposals through the enforcer, counting how many were
permitted. -/
def runProposals : CycleState → Nat → Nat × CycleState
  | s, 0 => (0, s)
  | s, n + 1 =>
    let p := proposeOrder s
    let rest := runProposals p.2 n
    ((if p.1 = ProposalResult.permitted then 1 else 0) + rest.1, rest.2)

/-!
Concrete inputs used by counterexamples and witnesses.
-/

/-- A holdings document where every link of the chain the dashboard actually
reads is missing, while the components carry a derived_cash value and the
account carries a buying-power value. -/
def cexDoc1 : SchwabDoc :=
  { account_info := some { buying_power := some 250 },
    funds_available_components := some { derived_cash := some 100 } }

/-- A document with an unrecognized status value. -/
def bogusStatusDoc : SchwabDoc := { status := "partial" }

/-- A successful document with every optional numeric field missing. -/
def blankSuccessDoc : SchwabDoc := {}

/-- A plain successful document. -/
def okDoc : SchwabDoc := { cash_balance := some 500 }

/-- A run whose token file is fresh but whose validation always fails while
every refresh subprocess succeeds. -/
def envValidateFails : AuthEnv :=
  { tokenFileExists := true, tokenAgeSeconds := 0,
    refreshOk := fun _ => true, validateOk := fun _ => false }

/-- A run with no token file whose refresh subprocess fails (for example a
network failure reaching the auth endpoint). -/
def envRefreshDies : AuthEnv :=
  { tokenFileExists := false, tokenAgeSeconds := 0,
    refreshOk := fun _ => false, validateOk := fun _ => true }

/-- A healthy run with a one-hour-old token file. -/
def envFreshToken : AuthEnv :=
  { tokenFileExists := true, tokenAgeSeconds := 3600,
    refreshOk := fun _ => true, validateOk := fun _ => true }

/-- A healthy run with a six-day-old token file (age 518400 seconds). -/
def envStaleToken : AuthEnv :=
  { tokenFileExists := true, tokenAgeSeconds := 518400,
    refreshOk := fun _ => true, validateOk := fun _ => true }

/-- Both children alive, script parked in the wait on the dashboard PID. -/
def bothRunning : SupState :=
  { streamAlive := true, dashAlive := true, phase := .waitingDash }

/-- A child that ignores SIGTERM. -/
def stubbornChild : ChildProc := { alive := true, honorsSigterm := false }

/-- A child that terminates on SIGTERM. -/
def obedientChild : ChildProc := { alive := true, honorsSigterm := true }

/-- Page state with a refresh in flight. -/
def busyUi : UiState := { schwabLoading := true }

/-- Page state with no refresh in flight. -/
def idleUi : UiState := { schwabLoading := false }

/-!
Theorems.
-/

/-- Nullish chains of five links with default 0 compute the first defined
value of the corresponding list. -/
theorem nv_nvo_chain (a b c d e : Option Int) :
    nv (nvo a (nvo b (nvo c (nvo d e)))) 0 = optChain [a, b, c, d, e] := by
  cases a <;> cases b <;> cases c <;> cases d <;> cases e <;> rfl

/-- C1 counterexample: on a document where the dashboard chain is entirely
missing but the components report derived_cash = 100 (and the account a
buying power of 250), the displayed value is 0, not the 100 the claimed
explicit-derived-buyingpower-settled chain would produce: the render never
consults derived_cash or buying_power. -/
theorem funds_chain_spec_mismatch :
    fundsAvailable cexDoc1 = 0 ∧ specFundsChain cexDoc1 = 100 ∧
    fundsAvailable cexDoc1 ≠ specFundsChain cexDoc1 := by
  decide

/-- C1 amended: the displayed effective-funds value is the first defined
value, top to bottom, of the chain the source actually evaluates:
funds_available_effective, then funds_available_for_trading, then
account_info.funds_available_for_trading, then
account_info.funds_available_effective, then cash_balance, then 0. -/
theorem funds_chain_is_first_defined (d : SchwabDoc) :
    fundsAvailable d = optChain
      [d.funds_available_effective, d.funds_available_for_trading,
       d.account_info.bind AccountInfo.funds_available_for_trading,
       d.account_info.bind AccountInfo.funds_available_effective,
       d.cash_balance] :=
  nv_nvo_chain _ _ _ _ _

/-- C2: when validation of the obtained token set fails, exactly one more
refresh is attempted, and the flow is fatal precisely when the retried
validation also fails — the total refresh count is one past the initial
count, so no further refresh loop exists. -/
theorem validate_fail_single_retry (e : AuthEnv)
    (hr : ∀ k, e.refreshOk k = true)
    (hv : e.validateOk (initialRefreshCount e) = false) :
    (authFlow e).2 = initialRefreshCount e + 1 ∧
    ((authFlow e).1 = AuthOutcome.fatal ↔
      e.validateOk (initialRefreshCount e + 1) = false) := by
  have hr0 := hr 0
  have hr1 := hr 1
  unfold initialRefreshCount at hv
  unfold authFlow initialRefreshCount authValidatePhase
  by_cases hn : needsInitialRefresh e = true
  · simp only [hn, if_true] at hv
    cases h2 : e.validateOk 2 <;> simp [hn, hv, hr0, hr1, h2]
  · rw [Bool.not_eq_true] at hn
    simp only [hn, Bool.false_eq_true, if_false] at hv
    cases h1 : e.validateOk 1 <;> simp [hn, hv, hr0, h1]

/-- C2 witness at a run whose validation always fails. -/
theorem validate_fail_single_retry_witness :
    (authFlow envValidateFails).2 = initialRefreshCount envValidateFails + 1 ∧
    ((authFlow envValidateFails).1 = AuthOutcome.fatal ↔
      envValidateFails.validateOk (initialRefreshCount envValidateFails + 1) = false) :=
  validate_fail_single_retry envValidateFails (fun _ => rfl) rfl

/-- C3: when the token file is absent or older than 432000 seconds, a
refresh occurs in the run trace strictly before any dependent process is
started; when the file exists and is younger than the threshold, no refresh
occurs before the first validation. -/
theorem stale_token_refresh_ordering (e : AuthEnv) :
    ((e.tokenFileExists = false ∨ freshnessThreshold < e.tokenAgeSeconds) →
      ScriptEv.evRefresh ∈ beforeProcs (scriptTrace e)) ∧
    (e.tokenFileExists = true → e.tokenAgeSeconds < freshnessThreshold →
      ScriptEv.evRefresh ∉ beforeValidation (scriptTrace e)) := by
  constructor
  · intro h
    have hn : needsInitialRefresh e = true := by
      unfold needsInitialRefresh
      rcases h with h | h
      · simp [h]
      · simp [Nat.not_lt.mpr (Nat.le_of_lt h)]
    unfold scriptTrace
    rw [hn]
    cases h0 : e.refreshOk 0 <;>
      simp [h0, beforeProcs, List.takeWhile, isProcStart]
  · intro h1 h2
    have hn : needsInitialRefresh e = false := by
      unfold needsInitialRefresh
      simp [h1, h2]
    unfold scriptTrace
    rw [hn]
    unfold validateTrace
    cases hv0 : e.validateOk 0 <;> cases hr0 : e.refreshOk 0 <;>
      cases hv1 : e.validateOk 1 <;>
      simp [hv0, hr0, hv1, beforeValidation, List.takeWhile, isValidateEv,
        launchTrace]

/-- C3 witness: a six-day-old token refreshes before any launch; a
one-hour-old token reaches validation without a refresh. -/
theorem stale_token_refresh_ordering_witness :
    ScriptEv.evRefresh ∈ beforeProcs (scriptTrace envStaleToken) ∧
    ScriptEv.evRefresh ∉ beforeValidation (scriptTrace envFreshToken) :=
  ⟨(stale_token_refresh_ordering envStaleToken).1 (Or.inr (by decide)),
   (stale_token_refresh_ordering envFreshToken).2 rfl (by decide)⟩

/-- C4 counterexample: a run that needs a refresh and whose refresh
subprocess fails (a network-level failure) terminates fatal after that
single attempt — there is no transient classification, no backoff, and no
additional attempt before escalation. -/
theorem refresh_failure_no_retry_cex :
    authFlow envRefreshDies = (AuthOutcome.fatal, 1) ∧
    envRefreshDies.refreshOk 0 = false := by
  decide

/-- C4 amended: the launcher performs no transient-failure retries: a
failed refresh subprocess aborts the run at once with exactly one attempt
made, and no run ever makes more than two refresh attempts in total. -/
theorem no_transient_retry_policy (e : AuthEnv) :
    (needsInitialRefresh e = true → e.refreshOk 0 = false →
      authFlow e = (AuthOutcome.fatal, 1)) ∧
    (authFlow e).2 ≤ 2 := by
  constructor
  · intro hn h0
    unfold authFlow
    simp [hn, h0]
  · unfold authFlow authValidatePhase
    by_cases hn : needsInitialRefresh e = true <;>
      cases h0 : e.refreshOk 0 <;> cases hv0 : e.validateOk 0 <;>
      cases hv1 : e.validateOk 1 <;> cases hv2 : e.validateOk 2 <;>
      cases h1 : e.refreshOk 1 <;>
      simp_all

/-- C4 witness at the run whose refresh subprocess fails. -/
theorem no_transient_retry_policy_witness :
    authFlow envRefreshDies = (AuthOutcome.fatal, 1) ∧
    (authFlow envRefreshDies).2 ≤ 2 :=
  ⟨(no_transient_retry_policy envRefreshDies).1 (by decide) rfl,
   (no_transient_retry_policy envRefreshDies).2⟩

/-- C5: while the script waits on the dashboard PID, a streaming-helper
death leaves the dashboard untouched and the supervisor still waiting,
whereas a dashboard death ends the run with the streaming helper killed by
the EXIT trap. -/
theorem supervisor_asymmetric_policy (s : SupState)
    (h : s.phase = SupPhase.waitingDash) :
    ((supStep s SupEvent.streamDies).dashAlive = s.dashAlive ∧
     (supStep s SupEvent.streamDies).phase = SupPhase.waitingDash) ∧
    ((supStep s SupEvent.dashDies).streamAlive = false ∧
     (supStep s SupEvent.dashDies).phase = SupPhase.exited) := by
  obtain ⟨st, da, ph⟩ := s
  cases ph
  · exact ⟨⟨rfl, rfl⟩, ⟨rfl, rfl⟩⟩
  · exact absurd h (by simp)

/-- C5 witness with both children running. -/
theorem supervisor_asymmetric_policy_witness :
    ((supStep bothRunning SupEvent.streamDies).dashAlive = bothRunning.dashAlive ∧
     (supStep bothRunning SupEvent.streamDies).phase = SupPhase.waitingDash) ∧
    ((supStep bothRunning SupEvent.dashDies).streamAlive = false ∧
     (supStep bothRunning SupEvent.dashDies).phase = SupPhase.exited) :=
  supervisor_asymmetric_policy bothRunning rfl

/-- C6 counterexample: the cleanup trap leaves a child that ignores SIGTERM
alive — the supervisor sends one SIGTERM per child and never waits out a
grace period or force-kills, so such a child outlives the supervisor. -/
theorem cleanup_leaves_stubborn_child_cex :
    cleanupTrap [stubbornChild] = [stubbornChild] ∧
    stubbornChild.alive = true := by
  decide

/-- C6 amended: the trap sends a single SIGTERM to each recorded child; a
child that honors SIGTERM is dead afterwards, while a child that ignores it
is left exactly as it was (no grace-period wait, no forced kill). -/
theorem cleanup_sigterm_only (cs : List ChildProc) :
    (∀ c ∈ cleanupTrap cs, c.honorsSigterm = true → c.alive = false) ∧
    (∀ c ∈ cs, c.honorsSigterm = false → sendSigterm c = c) := by
  constructor
  · intro c hc hh
    rcases List.mem_map.mp hc with ⟨c0, _, rfl⟩
    cases ha : c0.alive <;> cases hs : c0.honorsSigterm <;>
      simp_all [sendSigterm]
  · intro c _ hf
    simp [sendSigterm, hf]

/-- C6 witness: a SIGTERM-honoring child is dead after cleanup, a
SIGTERM-ignoring child is untouched. -/
theorem cleanup_sigterm_only_witness :
    (sendSigterm obedientChild).alive = false ∧
    sendSigterm stubbornChild = stubbornChild :=
  ⟨(cleanup_sigterm_only [obedientChild]).1 (sendSigterm obedientChild)
      (by simp [cleanupTrap]) (by decide),
   (cleanup_sigterm_only [stubbornChild]).2 stubbornChild (by simp) rfl⟩

/-- Once a live cycle has used up its cap, no further proposal is ever
permitted. -/
theorem runProposals_saturated (s : CycleState)
    (hm : s.mode = TradeMode.live) (h : s.cap ≤ s.trades_executed) :
    ∀ n, (runProposals s n).1 = 0 := by
  intro n
  induction n with
  | zero => rfl
  | succ n ih =>
    have hp : proposeOrder s = (ProposalResult.refusedCapExceeded, s) := by
      obtain ⟨t, c, m⟩ := s
      simp only at hm h
      subst hm
      simp [proposeOrder, h]
    simp [runProposals, hp, ih]

/-- C7: with no operator override, the exported trade cap resolves to 1,
and in a live cycle under that cap the enforcer permits exactly
min n 1 of any n proposals — at most one trade per cycle. -/
theorem default_trade_cap_one :
    resolvedCap none = 1 ∧
    ∀ n, (runProposals
      { trades_executed := 0, cap := resolvedCap none, mode := TradeMode.live }
      n).1 = min n 1 := by
  have hc : resolvedCap none = 1 := rfl
  refine ⟨hc, ?_⟩
  intro n
  cases n with
  | zero => simp [runProposals]
  | succ n =>
    have h1 : proposeOrder
        { trades_executed := 0, cap := resolvedCap none, mode := TradeMode.live } =
        (ProposalResult.permitted,
         { trades_executed := 1, cap := resolvedCap none, mode := TradeMode.live }) := by
      rw [hc]
      decide
    have h2 := runProposals_saturated
      { trades_executed := 1, cap := resolvedCap none, mode := TradeMode.live }
      rfl (by simp [hc]) n
    have hmin : min (n + 1) 1 = 1 := by omega
    rw [hmin]
    simp [runProposals, h1, h2]

/-- C8 counterexample: the startup validation rejects both live and
live_readonly — the recognized values are not the set the claim states. -/
theorem trading_mode_live_rejected_cex :
    tradingModeAccepted "live" = false ∧
    tradingModeAccepted "live_readonly" = false := by
  decide

/-- C8 amended: the startup validation accepts simulation and real_world
and rejects live and live_readonly (acceptance is a substring test of the
space-wrapped candidate against the joined list, so the composite string
simulation real_world also happens to pass). -/
theorem trading_mode_recognized_set :
    tradingModeAccepted "simulation" = true ∧
    tradingModeAccepted "real_world" = true ∧
    tradingModeAccepted "live" = false ∧
    tradingModeAccepted "live_readonly" = false ∧
    tradingModeAccepted "simulation real_world" = true := by
  decide

/-- C9 counterexample: a document with enabled true and an unrecognized
status lands in the explicit error state, so the error state is not shown
only for disabled integrations or status error. -/
theorem unexpected_status_error_cex :
    bogusStatusDoc.enabled = true ∧ bogusStatusDoc.status ≠ "error" ∧
    refreshDispatch bogusStatusDoc =
      RenderOutcome.errorState "Unexpected response from Schwab API" := by
  decide

/-- C9 amended: the dispatch shows the explicit error state exactly when
the integration is disabled, the status is error, or the status is neither
disabled nor success; every enabled success document is rendered, and a
success document with all numeric sources missing renders every
chain-resolved funds field as 0 (the buying-power pair is skipped when
account_info is absent). -/
theorem dispatch_and_render_defaults (d : SchwabDoc) :
    (isErrorOutcome (refreshDispatch d) = true ↔
      (d.enabled = false ∨ d.status = "error" ∨
        (d.status ≠ "disabled" ∧ d.status ≠ "success"))) ∧
    (d.enabled = true → d.status = "success" →
      refreshDispatch d = RenderOutcome.rendered (renderSchwabData d)) ∧
    refreshDispatch blankSuccessDoc = RenderOutcome.rendered
      { total := 0, funds := 0, settled := 0, unsettled := 0, reserve := 0,
        openOrders := 0, buyingPower := none, dayTradingPower := none } := by
  refine ⟨?_, ?_, by decide⟩
  · unfold refreshDispatch
    by_cases h1 : d.enabled = false <;> by_cases h2 : d.status = "error" <;>
      by_cases h3 : d.status = "disabled" <;> by_cases h4 : d.status = "success" <;>
      simp [h1, h2, h3, h4, isErrorOutcome]
  · intro he hs
    unfold refreshDispatch
    rw [he, hs]
    simp

/-- C9 witness at a plain successful document. -/
theorem dispatch_and_render_defaults_witness :
    refreshDispatch okDoc = RenderOutcome.rendered (renderSchwabData okDoc) :=
  (dispatch_and_render_defaults okDoc).2.1 rfl rfl

/-- C10: while the loading flag is set, any invocation (manual or from the
interval) returns unchanged without issuing a request; when it is clear, a
request is issued and the flag is false again after either completion
path. -/
theorem loading_guard_single_flight (s : UiState) (f : FetchOutcome) :
    (s.schwabLoading = true →
      refreshSchwabStep s f = (s, false, none) ∧
      intervalTick s f = (s, false, none)) ∧
    (s.schwabLoading = false →
      (refreshSchwabStep s f).2.1 = true ∧
      (refreshSchwabStep s f).1.schwabLoading = false) := by
  obtain ⟨b⟩ := s
  cases f <;> cases b <;> constructor <;> intro h <;>
    simp_all [refreshSchwabStep, intervalTick]

/-- C10 witness at a busy and an idle page state. -/
theorem loading_guard_single_flight_witness :
    refreshSchwabStep busyUi (FetchOutcome.ok blankSuccessDoc) =
      (busyUi, false, none) ∧
    (refreshSchwabStep idleUi (FetchOutcome.ok blankSuccessDoc)).2.1 = true :=
  ⟨((loading_guard_single_flight busyUi (FetchOutcome.ok blankSuccessDoc)).1 rfl).1,
   ((loading_guard_single_flight idleUi (FetchOutcome.ok blankSuccessDoc)).2 rfl).1⟩

end DAITrader
